import Mathlib

/-!
Verification development for the pencil-chess cross-context synchronization
layer: a shallow embedding of the Local Sync Host (game-host.component.ts),
the Embedded Board Controller (board-embed.component.ts), the Online Sync
Controller (online-game.component.ts) and the Storage Adapter
(storage.service.ts), together with theorems settling the spec claims.

The chess rules library (chess.js) and the board widget (ngx-chess-board)
are external collaborators; they are modelled as oracles: a RulesEngine
structure of arbitrary functions over position strings, and explicit board
state fields plus an effect trace for widget calls.
-/

namespace PencilChess

/-- Side assigned to a participant, src/src/app/types Role. -/
inductive Role
  | white
  | black
  deriving DecidableEq, Repr

/-- Side to move, src/src/app/types Turn, the chess.js letters w and b. -/
inductive Turn
  | w
  | b
  deriving DecidableEq, Repr

/-- The closed wire-message union exchanged between host and children. -/
inductive WireMessage
  | IFRAME_READY
  | ROLE_ASSIGN (role : Role)
  | REQUEST_SYNC
  | SYNC_STATE (fen : String) (pgn : Option String)
  | BOARD_UPDATE (fen : String)
  | TURN (turn : Turn)
  | RESET
  | GAME_OVER (winner : Role) (reason : String)
  deriving DecidableEq, Repr

/-- Oracle for the external chess.js library, per the Rules Engine Adapter
contract: load(position) fails on malformed input (valid), turn() returns
the side to move of a loaded position (turnOf), isCheckmate() (isMate),
and pgn() serialization (pgnOf). -/
structure RulesEngine where
  valid : String → Bool
  turnOf : String → Turn
  isMate : String → Bool
  pgnOf : String → String

/-- Standard chess starting position produced by new Chess() / board.reset(). -/
def startFEN : String :=
  "rnbqkbnr/pppppppp/8/8/8/8/PPPPPPPP/RNBQKBNR w KQkq - 0 1"

/-! ## Storage Adapter (storage.service.ts)

localStorage is modelled as an association list from keys to raw strings;
JSON.stringify and JSON.parse as an abstract codec in which parsing the
empty string fails (JSON.parse of an empty string always throws). load
returns null when the raw value is null or empty (the raw-is-truthy test)
or when JSON.parse throws; save and clear swallow storage exceptions, so
the model keeps their success path. -/

/-- Abstract JSON codec for the persisted record type. dec returns none
where JSON.parse would throw; parsing the empty string always throws. -/
structure Codec (T : Type) where
  encode : T → String
  dec : String → Option T
  dec_empty : dec "" = none

/-- Browser localStorage content: newest binding first. -/
def Store : Type := List (String × String)

/-- localStorage.getItem. -/
def Store.getItem (st : Store) (k : String) : Option String :=
  List.lookup k st

/-- localStorage.setItem. -/
def Store.setItem (st : Store) (k v : String) : Store :=
  (k, v) :: st

/-- localStorage.removeItem. -/
def Store.removeItem (st : Store) (k : String) : Store :=
  List.filter (fun p => p.1 ≠ k) st

/-- The StorageService instance: its injected STORAGE_KEY and the codec
for its record type T. -/
structure StorageService (T : Type) where
  key : String
  codec : Codec T

/-- StorageService.load: read the raw string, return null when absent or
falsy, otherwise JSON.parse (returning null when parsing throws). -/
def StorageService.load {T : Type} (svc : StorageService T) (st : Store) : Option T :=
  match Store.getItem st svc.key with
  | none => none
  | some raw => if raw = "" then none else svc.codec.dec raw

/-- StorageService.save: JSON.stringify the state and store it. -/
def StorageService.save {T : Type} (svc : StorageService T) (st : Store) (state : T) : Store :=
  Store.setItem st svc.key (svc.codec.encode state)

/-- StorageService.clear: remove the key. -/
def StorageService.clear {T : Type} (svc : StorageService T) (st : Store) : Store :=
  Store.removeItem st svc.key

/-! ## Local Sync Host (game-host.component.ts) -/

/-- A same-origin sender window: the two iframe content windows, or any
other same-origin window (which the slot comparisons treat as not-frame1). -/
inductive Win
  | frame1
  | frame2
  | stranger
  deriving DecidableEq, Repr

/-- GameHostComponent state: the chess.js truth (kept as the last loaded
FEN), the persisted SavedState slot, and the UI fields. -/
structure HostState where
  fen : String
  storage : Option String
  currentTurnText : String
  overlayVisible : Bool
  overlayText : String
  deriving DecidableEq, Repr

/-- Host state right after ngAfterViewInit with no saved game. -/
def hostInit : HostState :=
  { fen := startFEN
  , storage := none
  , currentTurnText := ""
  , overlayVisible := false
  , overlayText := "" }

/-- otherWindow: frame2 when the source is frame1, else frame1. -/
def otherWindow : Win → Win
  | Win.frame1 => Win.frame2
  | _ => Win.frame1

/-- currentTurnWindow: frame1 when chess.turn() is w, else frame2. -/
def currentTurnWindow (E : RulesEngine) (s : HostState) : Win :=
  if E.turnOf s.fen = Turn.w then Win.frame1 else Win.frame2

/-- The host status line text for a turn. -/
def turnText : Turn → String
  | Turn.w => "White to move"
  | Turn.b => "Black to move"

/-- Role name in upper case, for the overlay text. -/
def roleUpper : Role → String
  | Role.white => "WHITE"
  | Role.black => "BLACK"

/-- broadcastTurn: update the host status line and post TURN to both
children. -/
def broadcastTurn (E : RulesEngine) (s : HostState) :
    HostState × List (Win × WireMessage) :=
  let t := E.turnOf s.fen
  ({ s with currentTurnText := turnText t }
  , [(Win.frame1, WireMessage.TURN t), (Win.frame2, WireMessage.TURN t)])

namespace GameHost

/-- GameHostComponent.onMessage, after the cross-origin, null-source and
malformed-data guards: the state transition together with the list of
(target window, message) posts it performs. -/
def onMessage (E : RulesEngine) (s : HostState) (srcWin : Win) (data : WireMessage) :
    HostState × List (Win × WireMessage) :=
  match data with
  | WireMessage.IFRAME_READY =>
      let role := if srcWin = Win.frame1 then Role.white else Role.black
      let bt := broadcastTurn E s
      (bt.1
      , (srcWin, WireMessage.ROLE_ASSIGN role)
          :: (srcWin, WireMessage.SYNC_STATE s.fen none) :: bt.2)
  | WireMessage.REQUEST_SYNC =>
      let bt := broadcastTurn E s
      (bt.1, (srcWin, WireMessage.SYNC_STATE s.fen none) :: bt.2)
  | WireMessage.BOARD_UPDATE fen =>
      if srcWin = currentTurnWindow E s then
        if E.valid fen then
          let s1 : HostState := { s with fen := fen, storage := some fen }
          if E.isMate fen then
            let winner : Role :=
              if E.turnOf fen = Turn.w then Role.black else Role.white
            ({ s1 with
                overlayText := roleUpper winner ++ " wins by checkmate"
              , overlayVisible := true }
            , [(Win.frame1, WireMessage.GAME_OVER winner "checkmate")
              , (Win.frame2, WireMessage.GAME_OVER winner "checkmate")])
          else
            let bt := broadcastTurn E s1
            (bt.1, (otherWindow srcWin, WireMessage.SYNC_STATE fen none) :: bt.2)
        else (s, [])
      else (s, [])
  | _ => (s, [])

end GameHost

/-! ## Embedded Board Controller (board-embed.component.ts)

The board widget is represented by its position (boardFen) plus the
controller's tracking fields; flips is a ghost counter of board.reverse()
calls, used to state orientation-idempotence claims. Per the code's own
model of the widget, setFEN and reset may silently restore the default
orientation, which is why the handlers clear isReversed before re-applying
the orientation. -/

/-- BoardEmbedComponent state. -/
structure EmbedState where
  role : Option Role
  moveDisabled : Bool
  applyingRemote : Bool
  isReversed : Bool
  boardFen : String
  flips : Nat
  deriving DecidableEq, Repr

/-- Embed state right after ngAfterViewInit (role unset, moves disabled). -/
def embedInit : EmbedState :=
  { role := none
  , moveDisabled := true
  , applyingRemote := false
  , isReversed := false
  , boardFen := startFEN
  , flips := 0 }

namespace BoardEmbed

/-- ensureOrientation: rotate the board exactly once if the role is black;
no-op when the tracked reversed flag already matches. -/
def ensureOrientation (s : EmbedState) : EmbedState :=
  let shouldBeReversed : Bool := decide (s.role = some Role.black)
  if shouldBeReversed ≠ s.isReversed then
    { s with isReversed := shouldBeReversed, flips := s.flips + 1 }
  else s

/-- Per-color drag disabling: dark pieces are not draggable for white,
when moves are disabled, or while applying a remote update. -/
def darkDisabled (s : EmbedState) : Bool :=
  decide (s.role = some Role.white) || s.moveDisabled || s.applyingRemote

/-- Per-color drag disabling for the light pieces. -/
def lightDisabled (s : EmbedState) : Bool :=
  decide (s.role = some Role.black) || s.moveDisabled || s.applyingRemote

/-- BoardEmbedComponent.onMessage, after the same-origin and malformed-data
guards. Handlers post nothing back, so the result is just the new state. -/
def onMessage (s : EmbedState) (msg : WireMessage) : EmbedState :=
  match msg with
  | WireMessage.ROLE_ASSIGN role =>
      ensureOrientation { s with role := some role }
  | WireMessage.SYNC_STATE fen _ =>
      let s1 : EmbedState :=
        { s with applyingRemote := true, boardFen := fen, isReversed := false }
      let s2 := ensureOrientation s1
      { s2 with applyingRemote := false }
  | WireMessage.TURN turn =>
      match s.role with
      | none => s
      | some role =>
          let isMyTurn : Bool :=
            decide ((role = Role.white ∧ turn = Turn.w)
              ∨ (role = Role.black ∧ turn = Turn.b))
          { s with moveDisabled := ! isMyTurn }
  | WireMessage.RESET =>
      let s1 : EmbedState :=
        { s with applyingRemote := true, boardFen := startFEN }
      let s2 : EmbedState := { s1 with applyingRemote := false, isReversed := false }
      let s3 := ensureOrientation s2
      { s3 with moveDisabled := decide (s.role ≠ some Role.white) }
  | WireMessage.GAME_OVER _ _ =>
      { s with moveDisabled := true }
  | _ => s

/-- onUserMove: suppressed while applying a remote update, otherwise
reports the raw widget FEN upward as BOARD_UPDATE. -/
def onUserMove (s : EmbedState) : Option WireMessage :=
  if s.applyingRemote then none
  else some (WireMessage.BOARD_UPDATE s.boardFen)

end BoardEmbed

/-! ## Online Sync Controller (online-game.component.ts) -/

/-- The players map of the room document; each slot holds the occupying
participant identifier when claimed. -/
structure PlayersDoc where
  white : Option String
  black : Option String
  deriving DecidableEq, Repr

/-- Room status enum. -/
inductive GameStatus
  | waiting
  | live
  | ended
  deriving DecidableEq, Repr

/-- The shared room document under games/code. -/
structure GameDoc where
  fen : String
  pgn : Option String
  turn : Turn
  status : Option GameStatus
  winner : Option Role
  players : Option PlayersDoc
  deriving DecidableEq, Repr

/-- The persisted online session record. -/
structure OnlineLocalState where
  code : String
  role : Role
  clientId : String
  deriving DecidableEq, Repr

/-- The payload of the remote update written on an accepted move. -/
structure UpdatePayload where
  fen : String
  pgn : String
  turn : Turn
  status : GameStatus
  winner : Option Role
  deriving DecidableEq, Repr

/-- Primitive effects of the online handlers: toggling the remote-update
guard flag, board widget calls, and remote-document writes. -/
inductive Eff
  | guard (b : Bool)
  | boardSetFEN (fen : String)
  | boardReverse
  | writeRemote (p : UpdatePayload)
  deriving DecidableEq, Repr

/-- OnlineGameComponent state (the fields the claims depend on). chessFen
is the chess.js instance truth; saved is the persisted session record. -/
structure OnlineState where
  code : String
  statusText : String
  overlayVisible : Bool
  overlayText : String
  role : Option Role
  applyingRemote : Bool
  bothJoined : Bool
  moveDisabled : Bool
  isReversed : Bool
  hasGameRef : Bool
  subscribed : Bool
  chessFen : String
  boardFen : String
  saved : Option OnlineLocalState
  flips : Nat
  deriving DecidableEq, Repr

/-- The truthiness test on players.slot.id used by joinGame: a slot counts
as taken when it holds a non-empty identifier string. -/
def idTaken : Option String → Bool
  | none => false
  | some id => decide (id ≠ "")

/-- The write performed by joinGame: an update of status and players. -/
structure JoinWrite where
  status : GameStatus
  players : PlayersDoc
  deriving DecidableEq, Repr

namespace OnlineGame

/-- orientForRole: keep black facing the player, tracked by isReversed;
flips is the ghost counter of board.reverse() calls. -/
def orientForRole (s : OnlineState) : OnlineState :=
  let shouldBeReversed : Bool := decide (s.role = some Role.black)
  if shouldBeReversed ≠ s.isReversed then
    { s with isReversed := shouldBeReversed, flips := s.flips + 1 }
  else s

/-- handleGameOver: freeze moves, show the winner overlay, and clear the
persisted session record. -/
def handleGameOver (s : OnlineState) (winner : Role) : OnlineState :=
  { s with
      moveDisabled := true
    , overlayText := roleUpper winner ++ " wins by checkmate"
    , overlayVisible := true
    , saved := none }

/-- The tail shared by both successful join branches: persist the session,
subscribe, set the status line, block moves until the server echo, and
orient the board for the claimed role. -/
def joinFinish (clientId : String) (s : OnlineState) : OnlineState :=
  let s1 : OnlineState :=
    { s with
        saved := s.role.map (fun r =>
          { code := s.code, role := r, clientId := clientId })
      , subscribed := true
      , statusText := "Joined game: " ++ s.code
      , moveDisabled := true
      , isReversed := false }
  orientForRole s1

/-- OnlineGameComponent.joinGame on a fetched room snapshot: remote is the
document under games/code (none when the snapshot does not exist). Returns
the new local state and the remote update written, if any. -/
def joinGame (clientId : String) (s : OnlineState) (remote : Option GameDoc) :
    OnlineState × Option JoinWrite :=
  if s.role ≠ none then (s, none)
  else if s.code = "" then
    ({ s with statusText := "Enter a game code first." }, none)
  else
    match remote with
    | none =>
        ({ s with statusText := "Game not found.", hasGameRef := false }, none)
    | some val =>
        let players := val.players.getD { white := none, black := none }
        let whiteTaken := idTaken players.white
        let blackTaken := idTaken players.black
        if whiteTaken && blackTaken then
          ({ s with
              statusText := "This game already has two players."
            , hasGameRef := false }, none)
        else if whiteTaken && ! blackTaken then
          let s1 : OnlineState := { s with role := some Role.black, hasGameRef := true }
          (joinFinish clientId s1
          , some { status := GameStatus.live
                 , players := { players with black := some clientId } })
        else if ! whiteTaken then
          let s1 : OnlineState := { s with role := some Role.white, hasGameRef := true }
          (joinFinish clientId s1
          , some { status := GameStatus.waiting
                 , players := { players with white := some clientId } })
        else
          ({ s with
              statusText := "Unable to join right now."
            , hasGameRef := false }, none)

/-- OnlineGameComponent.onUserMove: validate the widget FEN through the
rules engine; on rejection revert the view to the last known-good position
under the remote-update guard with no remote write; on acceptance write
the new state, with ended status and winner when the position is mate. -/
def onUserMove (E : RulesEngine) (s : OnlineState) : OnlineState × List Eff :=
  if s.applyingRemote ∨ ¬ s.hasGameRef ∨ s.role = none then (s, [])
  else if ¬ s.bothJoined ∨ s.moveDisabled then (s, [])
  else
    let fenAfter := s.boardFen
    if E.valid fenAfter then
      let s1 : OnlineState := { s with chessFen := fenAfter }
      let pgn := E.pgnOf fenAfter
      let nextTurn := E.turnOf fenAfter
      if E.isMate fenAfter then
        let winner : Role := if nextTurn = Turn.w then Role.black else Role.white
        (handleGameOver s1 winner
        , [Eff.writeRemote
            { fen := fenAfter, pgn := pgn, turn := nextTurn
            , status := GameStatus.ended, winner := some winner }])
      else
        ({ s1 with moveDisabled := true }
        , [Eff.writeRemote
            { fen := fenAfter, pgn := pgn, turn := nextTurn
            , status := GameStatus.live, winner := none }])
    else
      let s1 : OnlineState :=
        { s with applyingRemote := true, boardFen := s.chessFen, isReversed := false }
      let s2 := orientForRole s1
      let revEffs : List Eff :=
        if decide (s.role = some Role.black) then [Eff.boardReverse] else []
      ({ s2 with applyingRemote := false }
      , [Eff.guard true, Eff.boardSetFEN s.chessFen] ++ revEffs ++ [Eff.guard false])

end OnlineGame

/-! ## Concrete fixtures for witnesses and counterexamples -/

/-- Fools-mate final position: white to move and checkmated. -/
def mateFEN : String :=
  "rnb1kbnr/pppp1ppp/8/4p3/6Pq/5P2/PPPPP2P/RNBQKBNR w KQkq - 0 3"

/-- A legal position with black to move (after 1. e4). -/
def e4FEN : String :=
  "rnbqkbnr/pppppppp/8/8/4P3/8/PPPP1PPP/RNBQKBNR b KQkq - 0 1"

/-- Concrete rules-engine oracle over three known positions, used to
instantiate the universally quantified theorems at concrete inputs. -/
def testEngine : RulesEngine :=
  { valid := fun f => decide (f = startFEN ∨ f = mateFEN ∨ f = e4FEN)
  , turnOf := fun f => if f = e4FEN then Turn.b else Turn.w
  , isMate := fun f => decide (f = mateFEN)
  , pgnOf := fun _ => "" }

/-- Host state holding the position after 1. e4 (black to move). -/
def e4Host : HostState := { hostInit with fen := e4FEN }

/-- Embed state of the white player during its turn. -/
def embedWhite : EmbedState :=
  { embedInit with role := some Role.white, moveDisabled := false }

/-- Online state of the black player about to report the mating move:
the widget already shows the mate position, chess.js still holds the
previous position. -/
def onlineMate : OnlineState :=
  { code := "ROOM42"
  , statusText := ""
  , overlayVisible := false
  , overlayText := ""
  , role := some Role.black
  , applyingRemote := false
  , bothJoined := true
  , moveDisabled := false
  , isReversed := true
  , hasGameRef := true
  , subscribed := true
  , chessFen := e4FEN
  , boardFen := mateFEN
  , saved := some { code := "ROOM42", role := Role.black, clientId := "guest1" }
  , flips := 1 }

/-- Online state of the black player whose widget reports a corrupt FEN. -/
def onlineBad : OnlineState := { onlineMate with boardFen := "garbage" }

/-- Online state before joining: no role, a room code entered. -/
def onlinePre : OnlineState :=
  { code := "ROOM42"
  , statusText := ""
  , overlayVisible := false
  , overlayText := ""
  , role := none
  , applyingRemote := false
  , bothJoined := false
  , moveDisabled := true
  , isReversed := false
  , hasGameRef := false
  , subscribed := false
  , chessFen := startFEN
  , boardFen := startFEN
  , saved := none
  , flips := 0 }

/-- Room document of a creator waiting for an opponent: white claimed. -/
def waitingDoc : GameDoc :=
  { fen := startFEN
  , pgn := some ""
  , turn := Turn.w
  , status := some GameStatus.waiting
  , winner := none
  , players := some { white := some "host1", black := none } }

/-- Room document whose host left mid-game: white vacated, black occupied. -/
def vacatedDoc : GameDoc :=
  { fen := e4FEN
  , pgn := some ""
  , turn := Turn.b
  , status := some GameStatus.waiting
  , winner := none
  , players := some { white := none, black := some "guest1" } }

/-- The write joinGame performs when reclaiming the vacated white slot of
vacatedDoc: both slots end up occupied, yet the status written is waiting. -/
def cexWrite : JoinWrite :=
  { status := GameStatus.waiting
  , players := { white := some "guest2", black := some "guest1" } }

/-- JSON codec used to instantiate the storage round-trip at Bool records. -/
def boolCodec : Codec Bool :=
  { encode := fun b => if b then "true" else "false"
  , dec := fun s =>
      if s = "true" then some true
      else if s = "false" then some false
      else none
  , dec_empty := by decide }

/-- A storage service with the offline key and the Bool codec. -/
def boolService : StorageService Bool :=
  { key := "offline-game-state", codec := boolCodec }

/-! ## Helper lemmas -/

/-- Reading a key right after setting it returns the new value. -/
theorem getItem_setItem (st : Store) (k v : String) :
    Store.getItem (Store.setItem st k v) k = some v := by
  simp [Store.getItem, Store.setItem, List.lookup]

/-- Reading a key right after removing it finds nothing. -/
theorem getItem_removeItem (st : Store) (k : String) :
    Store.getItem (Store.removeItem st k) k = none := by
  unfold Store.getItem Store.removeItem
  induction st with
  | nil => rfl
  | cons hd tl ih =>
      obtain ⟨a, b⟩ := hd
      by_cases h : a = k
      · subst h
        simpa [List.filter] using ih
      · have hba : (k == a) = false := beq_eq_false_iff_ne.mpr (Ne.symm h)
        simp [List.filter, h, List.lookup, hba] at ih ⊢
        exact ih

/-! ## Claim theorems -/

/-- C10: for the Storage Adapter with any fixed key, save followed by load
returns the saved value for every state surviving the JSON round-trip, and
load after clear returns null. -/
theorem storage_roundtrip {T : Type} (svc : StorageService T) (st : Store) (t : T)
    (h : svc.codec.dec (svc.codec.encode t) = some t) :
    svc.load (svc.save st t) = some t ∧ svc.load (svc.clear st) = none := by
  constructor
  · by_cases he : svc.codec.encode t = ""
    · rw [he, svc.codec.dec_empty] at h
      exact absurd h (by simp)
    · simp only [StorageService.load, StorageService.save, getItem_setItem]
      rw [if_neg he, h]
  · simp only [StorageService.load, StorageService.clear, getItem_removeItem]

/-- Witness for C10 at the Bool codec and the value true. -/
theorem storage_roundtrip_witness :
    boolService.codec.dec (boolService.codec.encode true) = some true
    ∧ (boolService.load (boolService.save [] true) = some true
        ∧ boolService.load (boolService.clear []) = none) :=
  ⟨by decide, storage_roundtrip boolService [] true (by decide)⟩

/-- ensureOrientation never changes the assigned role. -/
theorem ensureOrientation_role (s : EmbedState) :
    (BoardEmbed.ensureOrientation s).role = s.role := by
  simp only [BoardEmbed.ensureOrientation]
  split <;> rfl

/-- ensureOrientation never changes the board position. -/
theorem ensureOrientation_boardFen (s : EmbedState) :
    (BoardEmbed.ensureOrientation s).boardFen = s.boardFen := by
  simp only [BoardEmbed.ensureOrientation]
  split <;> rfl

/-- ensureOrientation leaves the tracked flag equal to the target
orientation: reversed exactly when the role is black. -/
theorem ensureOrientation_isReversed (s : EmbedState) :
    (BoardEmbed.ensureOrientation s).isReversed = decide (s.role = some Role.black) := by
  simp only [BoardEmbed.ensureOrientation]
  split
  · rfl
  · next h => exact (not_ne_iff.mp h).symm

/-- ensureOrientation is the identity when the flag already matches. -/
theorem ensureOrientation_eq_self (s : EmbedState)
    (h : decide (s.role = some Role.black) = s.isReversed) :
    BoardEmbed.ensureOrientation s = s := by
  simp only [BoardEmbed.ensureOrientation]
  simp [h]

/-- orientForRole never changes the assigned role. -/
theorem orientForRole_role (s : OnlineState) :
    (OnlineGame.orientForRole s).role = s.role := by
  simp only [OnlineGame.orientForRole]
  split <;> rfl

/-- orientForRole leaves the tracked flag equal to the target orientation. -/
theorem orientForRole_isReversed (s : OnlineState) :
    (OnlineGame.orientForRole s).isReversed = decide (s.role = some Role.black) := by
  simp only [OnlineGame.orientForRole]
  split
  · rfl
  · next h => exact (not_ne_iff.mp h).symm

/-- orientForRole is the identity when the flag already matches. -/
theorem orientForRole_eq_self (s : OnlineState)
    (h : decide (s.role = some Role.black) = s.isReversed) :
    OnlineGame.orientForRole s = s := by
  simp only [OnlineGame.orientForRole]
  simp [h]

/-- The SYNC_STATE handler preserves the assigned role. -/
theorem embed_sync_role (s : EmbedState) (fen : String) (pgn : Option String) :
    (BoardEmbed.onMessage s (WireMessage.SYNC_STATE fen pgn)).role = s.role := by
  have h := ensureOrientation_role
    { s with applyingRemote := true, boardFen := fen, isReversed := false }
  simpa [BoardEmbed.onMessage] using h

/-- After a SYNC_STATE the overwritten board shows the pushed position. -/
theorem embed_sync_boardFen (s : EmbedState) (fen : String) (pgn : Option String) :
    (BoardEmbed.onMessage s (WireMessage.SYNC_STATE fen pgn)).boardFen = fen := by
  have h := ensureOrientation_boardFen
    { s with applyingRemote := true, boardFen := fen, isReversed := false }
  simpa [BoardEmbed.onMessage] using h

/-- After a SYNC_STATE the orientation is restored for the role. -/
theorem embed_sync_isReversed (s : EmbedState) (fen : String) (pgn : Option String) :
    (BoardEmbed.onMessage s (WireMessage.SYNC_STATE fen pgn)).isReversed
      = decide (s.role = some Role.black) := by
  have h := ensureOrientation_isReversed
    { s with applyingRemote := true, boardFen := fen, isReversed := false }
  simpa [BoardEmbed.onMessage] using h

/-- Updating the role field with its current value is the identity. -/
theorem embed_with_role_self (x : EmbedState) (v : Option Role) (h : x.role = v) :
    { x with role := v } = x := by
  cases x
  simp at h
  simp [h]

/-- C6: the orientation restore operation is idempotent. Applying
ensureOrientation or orientForRole twice equals applying it once (the
ghost flip counter included, so the net number of board flips is the
same), the resulting reversed flag is exactly role-is-black, re-delivering
the same ROLE_ASSIGN is a no-op on the whole state, and re-delivering the
same SYNC_STATE leaves the orientation and position unchanged. -/
theorem orientation_idempotent (s : EmbedState) (t : OnlineState) (r : Role)
    (fen : String) (pgn : Option String) :
    BoardEmbed.ensureOrientation (BoardEmbed.ensureOrientation s)
        = BoardEmbed.ensureOrientation s
    ∧ (BoardEmbed.ensureOrientation s).isReversed = decide (s.role = some Role.black)
    ∧ OnlineGame.orientForRole (OnlineGame.orientForRole t) = OnlineGame.orientForRole t
    ∧ (OnlineGame.orientForRole t).isReversed = decide (t.role = some Role.black)
    ∧ BoardEmbed.onMessage (BoardEmbed.onMessage s (WireMessage.ROLE_ASSIGN r))
          (WireMessage.ROLE_ASSIGN r)
        = BoardEmbed.onMessage s (WireMessage.ROLE_ASSIGN r)
    ∧ (BoardEmbed.onMessage (BoardEmbed.onMessage s (WireMessage.SYNC_STATE fen pgn))
          (WireMessage.SYNC_STATE fen pgn)).isReversed
        = (BoardEmbed.onMessage s (WireMessage.SYNC_STATE fen pgn)).isReversed
    ∧ (BoardEmbed.onMessage (BoardEmbed.onMessage s (WireMessage.SYNC_STATE fen pgn))
          (WireMessage.SYNC_STATE fen pgn)).boardFen
        = (BoardEmbed.onMessage s (WireMessage.SYNC_STATE fen pgn)).boardFen := by
  refine ⟨?_, ensureOrientation_isReversed s, ?_, orientForRole_isReversed t, ?_, ?_, ?_⟩
  · exact ensureOrientation_eq_self _
      (by rw [ensureOrientation_role, ensureOrientation_isReversed])
  · exact orientForRole_eq_self _
      (by rw [orientForRole_role, orientForRole_isReversed])
  · show BoardEmbed.ensureOrientation
        { BoardEmbed.ensureOrientation { s with role := some r } with role := some r }
      = BoardEmbed.ensureOrientation { s with role := some r }
    rw [embed_with_role_self _ _ (by rw [ensureOrientation_role])]
    exact ensureOrientation_eq_self _
      (by rw [ensureOrientation_role, ensureOrientation_isReversed])
  · rw [embed_sync_isReversed, embed_sync_isReversed, embed_sync_role]
  · rw [embed_sync_boardFen, embed_sync_boardFen]

/-- C1: the Local Sync Host ignores a BOARD_UPDATE whose sender window is
not the window mapped to the side to move: the state (position, persisted
storage, UI fields) is unchanged and no message is sent. -/
theorem host_rejects_wrong_sender (E : RulesEngine) (s : HostState)
    (src : Win) (f : String) (h : src ≠ currentTurnWindow E s) :
    GameHost.onMessage E s src (WireMessage.BOARD_UPDATE f) = (s, []) := by
  simp [GameHost.onMessage, h]

/-- Witness for C1: with the start position white is to move, so a report
from frame2 is dropped. -/
theorem host_rejects_wrong_sender_witness :
    Win.frame2 ≠ currentTurnWindow testEngine hostInit
    ∧ GameHost.onMessage testEngine hostInit Win.frame2
        (WireMessage.BOARD_UPDATE e4FEN) = (hostInit, []) :=
  ⟨by decide, host_rejects_wrong_sender testEngine hostInit Win.frame2 e4FEN (by decide)⟩

/-- C2: a BOARD_UPDATE carrying a position the rules engine rejects leaves
the host state unchanged, persists nothing and broadcasts nothing,
whatever the sender. -/
theorem host_rejects_invalid_position (E : RulesEngine) (s : HostState)
    (src : Win) (f : String) (h : E.valid f = false) :
    GameHost.onMessage E s src (WireMessage.BOARD_UPDATE f) = (s, []) := by
  by_cases hs : src = currentTurnWindow E s
  · simp [GameHost.onMessage, hs, h]
  · simp [GameHost.onMessage, hs]

/-- Witness for C2: a garbage FEN from the current-turn window is dropped. -/
theorem host_rejects_invalid_position_witness :
    testEngine.valid "garbage" = false
    ∧ GameHost.onMessage testEngine hostInit Win.frame1
        (WireMessage.BOARD_UPDATE "garbage") = (hostInit, []) :=
  ⟨by decide
  , host_rejects_invalid_position testEngine hostInit Win.frame1 "garbage" (by decide)⟩

/-- C8: the TURN handler ignores the command when the role is unset
(state fully unchanged, so the move-enabled flag keeps its value, which
before any role assignment is false); with a role set, moves end up
enabled exactly when the announced turn matches the role side. -/
theorem embed_turn_gating (s : EmbedState) (t : Turn) :
    (s.role = none → BoardEmbed.onMessage s (WireMessage.TURN t) = s)
    ∧ (∀ r : Role, s.role = some r →
        ((BoardEmbed.onMessage s (WireMessage.TURN t)).moveDisabled = false
          ↔ ((r = Role.white ∧ t = Turn.w) ∨ (r = Role.black ∧ t = Turn.b)))) := by
  constructor
  · intro h
    simp [BoardEmbed.onMessage, h]
  · intro r h
    cases r <;> cases t <;> simp [BoardEmbed.onMessage, h]

/-- Witness for C8: the initial state ignores TURN, and the white player
state becomes enabled exactly on a white-turn announcement. -/
theorem embed_turn_gating_witness :
    BoardEmbed.onMessage embedInit (WireMessage.TURN Turn.w) = embedInit
    ∧ (BoardEmbed.onMessage embedWhite (WireMessage.TURN Turn.w)).moveDisabled = false :=
  ⟨(embed_turn_gating embedInit Turn.w).1 rfl
  , ((embed_turn_gating embedWhite Turn.w).2 Role.white rfl).mpr (Or.inl ⟨rfl, rfl⟩)⟩

/-- C7 counterexample: the host assigns roles by iframe slot, not by
readiness order. When the frame2 child is the first (and only) one to
announce readiness on a fresh host, it is assigned black, not white. -/
theorem role_by_slot_cex :
    ((GameHost.onMessage testEngine hostInit Win.frame2 WireMessage.IFRAME_READY).2).head?
      = some (Win.frame2, WireMessage.ROLE_ASSIGN Role.black)
    ∧ Role.black ≠ Role.white := by
  constructor
  · rfl
  · decide

/-- C7 amended: on IFRAME_READY the host replies with a role determined
only by the sender slot (frame1 gets white, every other sender black),
followed by the current position and a TURN broadcast; this happens on
every delivery, re-assigning the same role. A child applying ROLE_ASSIGN
black flips its board exactly once; applying white never flips. -/
theorem role_by_slot (E : RulesEngine) (s : HostState) (src : Win) :
    GameHost.onMessage E s src WireMessage.IFRAME_READY
      = ({ s with currentTurnText := turnText (E.turnOf s.fen) }
        , [(src, WireMessage.ROLE_ASSIGN
              (if src = Win.frame1 then Role.white else Role.black))
          , (src, WireMessage.SYNC_STATE s.fen none)
          , (Win.frame1, WireMessage.TURN (E.turnOf s.fen))
          , (Win.frame2, WireMessage.TURN (E.turnOf s.fen))])
    ∧ (BoardEmbed.onMessage embedInit (WireMessage.ROLE_ASSIGN Role.black)).isReversed = true
    ∧ (BoardEmbed.onMessage embedInit (WireMessage.ROLE_ASSIGN Role.black)).flips = 1
    ∧ (BoardEmbed.onMessage embedInit (WireMessage.ROLE_ASSIGN Role.white)).isReversed = false
    ∧ (BoardEmbed.onMessage embedInit (WireMessage.ROLE_ASSIGN Role.white)).flips = 0 := by
  refine ⟨?_, by decide, by decide, by decide, by decide⟩
  simp [GameHost.onMessage, broadcastTurn]

/-- C4: when an accepted move yields checkmate, the recorded winner is
the side NOT to move at the mate position (black iff the engine reports
white to move), both in the GAME_OVER broadcast of the Local Sync Host
and in the ended write of the Online Sync Controller. -/
theorem checkmate_winner (E : RulesEngine) (sH : HostState) (src : Win) (f : String)
    (sO : OnlineState)
    (h1 : src = currentTurnWindow E sH) (h2 : E.valid f = true) (h3 : E.isMate f = true)
    (g1 : sO.applyingRemote = false) (g2 : sO.hasGameRef = true) (g3 : sO.role ≠ none)
    (g4 : sO.bothJoined = true) (g5 : sO.moveDisabled = false)
    (g6 : E.valid sO.boardFen = true) (g7 : E.isMate sO.boardFen = true) :
    (GameHost.onMessage E sH src (WireMessage.BOARD_UPDATE f)).2
      = [(Win.frame1, WireMessage.GAME_OVER
            (if E.turnOf f = Turn.w then Role.black else Role.white) "checkmate")
        , (Win.frame2, WireMessage.GAME_OVER
            (if E.turnOf f = Turn.w then Role.black else Role.white) "checkmate")]
    ∧ (OnlineGame.onUserMove E sO).2
      = [Eff.writeRemote
          { fen := sO.boardFen
          , pgn := E.pgnOf sO.boardFen
          , turn := E.turnOf sO.boardFen
          , status := GameStatus.ended
          , winner := some (if E.turnOf sO.boardFen = Turn.w
              then Role.black else Role.white) }] := by
  constructor
  · simp [GameHost.onMessage, h1, h2, h3]
  · simp [OnlineGame.onUserMove, g1, g2, g3, g4, g5, g6, g7]

/-- Witness for C4: the black player (frame2 offline, the black client
online) reports the fools-mate position; white is to move there, so the
recorded winner is black in both controllers. -/
theorem checkmate_winner_witness :
    (GameHost.onMessage testEngine e4Host Win.frame2 (WireMessage.BOARD_UPDATE mateFEN)).2
      = [(Win.frame1, WireMessage.GAME_OVER
            (if testEngine.turnOf mateFEN = Turn.w then Role.black else Role.white) "checkmate")
        , (Win.frame2, WireMessage.GAME_OVER
            (if testEngine.turnOf mateFEN = Turn.w then Role.black else Role.white) "checkmate")]
    ∧ (OnlineGame.onUserMove testEngine onlineMate).2
      = [Eff.writeRemote
          { fen := onlineMate.boardFen
          , pgn := testEngine.pgnOf onlineMate.boardFen
          , turn := testEngine.turnOf onlineMate.boardFen
          , status := GameStatus.ended
          , winner := some (if testEngine.turnOf onlineMate.boardFen = Turn.w
              then Role.black else Role.white) }] :=
  checkmate_winner testEngine e4Host Win.frame2 mateFEN onlineMate
    (by decide) (by decide) (by decide) rfl rfl (by decide) rfl rfl
    (by decide) (by decide)

/-- C9: when the online user-move handler sees a position the rules engine
rejects, it performs no remote write, keeps the last known-good position
in the rules-engine state, and reverts the board display to it with
orientation restored, with the board calls bracketed by the remote-update
guard. -/
theorem online_invalid_reverts (E : RulesEngine) (s : OnlineState) (r : Role)
    (g1 : s.applyingRemote = false) (g2 : s.hasGameRef = true)
    (g3 : s.role = some r) (g4 : s.bothJoined = true) (g5 : s.moveDisabled = false)
    (h : E.valid s.boardFen = false) :
    OnlineGame.onUserMove E s
      = ({ s with
            applyingRemote := false
          , boardFen := s.chessFen
          , isReversed := decide (r = Role.black)
          , flips := if r = Role.black then s.flips + 1 else s.flips }
        , [Eff.guard true, Eff.boardSetFEN s.chessFen]
            ++ (if r = Role.black then [Eff.boardReverse] else [])
            ++ [Eff.guard false]) := by
  cases r <;>
    simp [OnlineGame.onUserMove, OnlineGame.orientForRole, g1, g2, g3, g4, g5, h]

/-- Witness for C9: the black client reports a corrupt FEN; the handler
restores the e4 position, re-flips the board for black, and writes
nothing. -/
theorem online_invalid_reverts_witness :
    testEngine.valid onlineBad.boardFen = false
    ∧ OnlineGame.onUserMove testEngine onlineBad
      = ({ onlineBad with
            applyingRemote := false
          , boardFen := onlineBad.chessFen
          , isReversed := decide (Role.black = Role.black)
          , flips := if Role.black = Role.black
              then onlineBad.flips + 1 else onlineBad.flips }
        , [Eff.guard true, Eff.boardSetFEN onlineBad.chessFen]
            ++ (if Role.black = Role.black then [Eff.boardReverse] else [])
            ++ [Eff.guard false]) :=
  ⟨by decide
  , online_invalid_reverts testEngine onlineBad Role.black rfl rfl rfl rfl rfl (by decide)⟩

/-- joinFinish never changes the claimed role. -/
theorem joinFinish_role (clientId : String) (s : OnlineState) :
    (OnlineGame.joinFinish clientId s).role = s.role := by
  have h := orientForRole_role
    { s with
        saved := s.role.map (fun r =>
          { code := s.code, role := r, clientId := clientId })
      , subscribed := true
      , statusText := "Joined game: " ++ s.code
      , moveDisabled := true
      , isReversed := false }
  simpa [OnlineGame.joinFinish] using h

/-- C3 counterexample: the host itself is not frozen after checkmate.
From the position after 1. e4, frame2 (black) reports the fools-mate
position; the host broadcasts GAME_OVER for black and stores the mate
position. A subsequent BOARD_UPDATE from frame1 (the window mapped to the
side to move at the mate position) carrying a valid position is accepted:
the authoritative position changes and messages are broadcast again. -/
theorem offline_freeze_cex :
    ((GameHost.onMessage testEngine e4Host Win.frame2 (WireMessage.BOARD_UPDATE mateFEN)).2).head?
      = some (Win.frame1, WireMessage.GAME_OVER Role.black "checkmate")
    ∧ (GameHost.onMessage testEngine e4Host Win.frame2 (WireMessage.BOARD_UPDATE mateFEN)).1.fen
      = mateFEN
    ∧ (GameHost.onMessage testEngine
        (GameHost.onMessage testEngine e4Host Win.frame2 (WireMessage.BOARD_UPDATE mateFEN)).1
        Win.frame1 (WireMessage.BOARD_UPDATE e4FEN)).1.fen = e4FEN
    ∧ ¬ e4FEN = mateFEN
    ∧ ¬ (GameHost.onMessage testEngine
        (GameHost.onMessage testEngine e4Host Win.frame2 (WireMessage.BOARD_UPDATE mateFEN)).1
        Win.frame1 (WireMessage.BOARD_UPDATE e4FEN)).2 = [] := by
  exact ⟨rfl, rfl, rfl, by decide, by decide⟩

/-- C3 amended: after an accepted mate report the host broadcasts
GAME_OVER to both children; a child processing GAME_OVER has moves
disabled and both per-color drag flags disabled, so neither side can
originate a further BOARD_UPDATE; the host itself remains unfrozen, but
it leaves its position, persisted storage and broadcasts unchanged for
any BOARD_UPDATE from a sender other than the current-turn window or
carrying a position the engine rejects. -/
theorem offline_freeze (E : RulesEngine) (s : HostState) (src : Win) (f : String)
    (sE : EmbedState) (w : Role) (reason : String)
    (h1 : src = currentTurnWindow E s) (h2 : E.valid f = true) (h3 : E.isMate f = true) :
    (GameHost.onMessage E s src (WireMessage.BOARD_UPDATE f)).2
      = [(Win.frame1, WireMessage.GAME_OVER
            (if E.turnOf f = Turn.w then Role.black else Role.white) "checkmate")
        , (Win.frame2, WireMessage.GAME_OVER
            (if E.turnOf f = Turn.w then Role.black else Role.white) "checkmate")]
    ∧ BoardEmbed.onMessage sE (WireMessage.GAME_OVER w reason)
        = { sE with moveDisabled := true }
    ∧ BoardEmbed.darkDisabled (BoardEmbed.onMessage sE (WireMessage.GAME_OVER w reason)) = true
    ∧ BoardEmbed.lightDisabled (BoardEmbed.onMessage sE (WireMessage.GAME_OVER w reason)) = true
    ∧ (∀ (s2 : HostState) (src2 : Win) (f2 : String),
        src2 ≠ currentTurnWindow E s2 ∨ E.valid f2 = false →
        GameHost.onMessage E s2 src2 (WireMessage.BOARD_UPDATE f2) = (s2, [])) := by
  refine ⟨?_, ?_, ?_, ?_, ?_⟩
  · simp [GameHost.onMessage, h1, h2, h3]
  · simp [BoardEmbed.onMessage]
  · simp [BoardEmbed.darkDisabled, BoardEmbed.onMessage]
  · simp [BoardEmbed.lightDisabled, BoardEmbed.onMessage]
  · intro s2 src2 f2 hrej
    rcases hrej with hsrc | hval
    · simp [GameHost.onMessage, hsrc]
    · by_cases hs : src2 = currentTurnWindow E s2
      · simp [GameHost.onMessage, hs, hval]
      · simp [GameHost.onMessage, hs]

/-- Witness for C3 amended, on the fools-mate trace: GAME_OVER reaches
both frames, the white child freezes, and a garbage report from frame2 at
the fresh host is dropped. -/
theorem offline_freeze_witness :
    (GameHost.onMessage testEngine e4Host Win.frame2 (WireMessage.BOARD_UPDATE mateFEN)).2
      = [(Win.frame1, WireMessage.GAME_OVER
            (if testEngine.turnOf mateFEN = Turn.w then Role.black else Role.white) "checkmate")
        , (Win.frame2, WireMessage.GAME_OVER
            (if testEngine.turnOf mateFEN = Turn.w then Role.black else Role.white) "checkmate")]
    ∧ BoardEmbed.onMessage embedWhite (WireMessage.GAME_OVER Role.black "checkmate")
        = { embedWhite with moveDisabled := true }
    ∧ BoardEmbed.darkDisabled
        (BoardEmbed.onMessage embedWhite (WireMessage.GAME_OVER Role.black "checkmate")) = true
    ∧ BoardEmbed.lightDisabled
        (BoardEmbed.onMessage embedWhite (WireMessage.GAME_OVER Role.black "checkmate")) = true
    ∧ GameHost.onMessage testEngine hostInit Win.frame2
        (WireMessage.BOARD_UPDATE e4FEN) = (hostInit, []) := by
  have T := offline_freeze testEngine e4Host Win.frame2 mateFEN embedWhite
    Role.black "checkmate" (by decide) (by decide) (by decide)
  exact ⟨T.1, T.2.1, T.2.2.1, T.2.2.2.1
    , T.2.2.2.2 hostInit Win.frame2 e4FEN (Or.inl (by decide))⟩

/-- C5 counterexample: joining the room whose white slot was vacated while
black stays occupied claims white and leaves both slots occupied, yet the
status written is waiting, not live. -/
theorem join_slots_cex :
    (OnlineGame.joinGame "guest2" onlinePre (some vacatedDoc)).2 = some cexWrite
    ∧ idTaken cexWrite.players.white = true
    ∧ idTaken cexWrite.players.black = true
    ∧ ¬ cexWrite.status = GameStatus.live := by
  exact ⟨by decide, by decide, by decide, by decide⟩

/-- C5 amended: joinGame fails with not-found and no write when the room
document is absent, fails with already-full and no write when both slots
are occupied, and otherwise claims the open slot (black if white is
taken, else white); the status written is live when claiming black, but
waiting when claiming white, even when black is occupied and the claim
fills both slots. -/
theorem join_slots (clientId : String) (s : OnlineState) (val : GameDoc)
    (h0 : s.role = none) (h1 : ¬ s.code = "") :
    (OnlineGame.joinGame clientId s none
      = ({ s with statusText := "Game not found.", hasGameRef := false }, none))
    ∧ (idTaken (val.players.getD { white := none, black := none }).white = true →
        idTaken (val.players.getD { white := none, black := none }).black = true →
        OnlineGame.joinGame clientId s (some val)
          = ({ s with
                statusText := "This game already has two players."
              , hasGameRef := false }, none))
    ∧ (idTaken (val.players.getD { white := none, black := none }).white = true →
        idTaken (val.players.getD { white := none, black := none }).black = false →
        (OnlineGame.joinGame clientId s (some val)).1.role = some Role.black
        ∧ (OnlineGame.joinGame clientId s (some val)).2
            = some { status := GameStatus.live
                   , players := { val.players.getD { white := none, black := none } with
                       black := some clientId } })
    ∧ (idTaken (val.players.getD { white := none, black := none }).white = false →
        (OnlineGame.joinGame clientId s (some val)).1.role = some Role.white
        ∧ (OnlineGame.joinGame clientId s (some val)).2
            = some { status := GameStatus.waiting
                   , players := { val.players.getD { white := none, black := none } with
                       white := some clientId } }) := by
  refine ⟨?_, ?_, ?_, ?_⟩
  · simp [OnlineGame.joinGame, h0, h1]
  · intro hw hb
    simp [OnlineGame.joinGame, h0, h1, hw, hb]
  · intro hw hb
    constructor
    · simp [OnlineGame.joinGame, h0, h1, hw, hb, joinFinish_role]
    · simp [OnlineGame.joinGame, h0, h1, hw, hb]
  · intro hw
    constructor
    · simp [OnlineGame.joinGame, h0, h1, hw, joinFinish_role]
    · simp [OnlineGame.joinGame, h0, h1, hw]

/-- Witness for C5 amended: a missing room reports not-found without a
write, and joining the waiting room claims black and writes live with
both slots filled. -/
theorem join_slots_witness :
    (OnlineGame.joinGame "guest1" onlinePre none
      = ({ onlinePre with statusText := "Game not found.", hasGameRef := false }, none))
    ∧ (OnlineGame.joinGame "guest1" onlinePre (some waitingDoc)).1.role = some Role.black
    ∧ (OnlineGame.joinGame "guest1" onlinePre (some waitingDoc)).2
        = some { status := GameStatus.live
               , players := { waitingDoc.players.getD { white := none, black := none } with
                   black := some "guest1" } } := by
  have T := join_slots "guest1" onlinePre waitingDoc rfl (by decide)
  exact ⟨T.1, (T.2.2.1 (by decide) (by decide)).1, (T.2.2.1 (by decide) (by decide)).2⟩

end PencilChess
